import Mathlib

/-!
Shallow embedding of the grid/DCA bot order-lifecycle engine of the
ai_trading_assistant repository, and proofs about it.

Embedded modules:
* services/grid_bot_service.py  — create_grid_bot, stop_grid_bot, delete_grid_bot
* services/order_execution_service.py — execute_market_order_for_account
  (simulation branch), execute_grid_bot_levels
* services/ema_context_service.py — should_dca_bot_execute
* services/dca_bot_service.py — run_dca_cycle

Numbers are modelled exactly: rationals stand for the Python floats that feed
validation, balances and eligibility comparisons, and real numbers are used for
the geometric level prices, which involve a fractional power.  The SQLite store
is modelled as an explicit record of association lists passed through each
operation.
-/

namespace ATA

/-- Order type tag stored in the grid_levels table (strings BUY / SELL in the
source; a closed enumeration here). -/
inductive OrderType where
  | BUY
  | SELL
  deriving DecidableEq, Repr

/-- Tag assignment of create_grid_bot, STEP 3: level index i gets BUY when
`i < grid_count // 2` (Python integer division), SELL otherwise. -/
def levelOrderType (gridCount i : ℕ) : OrderType :=
  if i < gridCount / 2 then .BUY else .SELL

/-- Arithmetic level price of create_grid_bot, STEP 3:
`price_step = (upper_price - lower_price) / (grid_count - 1)` and
`level_price = lower_price + (i * price_step)`. -/
def arithLevelPrice (lower upper : ℚ) (gridCount i : ℕ) : ℚ :=
  lower + i * ((upper - lower) / ((gridCount : ℚ) - 1))

/-- Geometric factor of create_grid_bot, STEP 3:
`ratio = math.pow(upper_price / lower_price, 1.0 / (grid_count - 1))`. -/
noncomputable def geomFactor (lower upper : ℚ) (gridCount : ℕ) : ℝ :=
  ((upper : ℝ) / (lower : ℝ)) ^ ((1 : ℝ) / ((gridCount : ℝ) - 1))

/-- Geometric level price of create_grid_bot, STEP 3:
`level_price = lower_price * math.pow(ratio, i)`. -/
noncomputable def geomLevelPrice (lower upper : ℚ) (gridCount i : ℕ) : ℝ :=
  (lower : ℝ) * geomFactor lower upper gridCount ^ i

/-- One entry of the grid_levels list built by create_grid_bot, STEP 3:
level_price, order_type and level_number (= i + 1). -/
structure GridLevelSpec where
  levelPrice : ℝ
  orderType : OrderType
  levelNumber : ℕ

/-- Level computation of create_grid_bot, STEP 3: `for i in range(grid_count)`
with the arithmetic formula when grid_type is ARITHMETIC and the geometric
formula otherwise (grid_type was already validated to be one of the two). -/
noncomputable def calcGridLevels (gridType : String) (lower upper : ℚ)
    (gridCount : ℕ) : List GridLevelSpec :=
  if gridType = "ARITHMETIC" then
    (List.range gridCount).map (fun i =>
      { levelPrice := ((arithLevelPrice lower upper gridCount i : ℚ) : ℝ)
        orderType := levelOrderType gridCount i
        levelNumber := i + 1 })
  else
    (List.range gridCount).map (fun i =>
      { levelPrice := geomLevelPrice lower upper gridCount i
        orderType := levelOrderType gridCount i
        levelNumber := i + 1 })

/-! ## order_execution_service.execute_grid_bot_levels (the tick) -/

/-- Row of the grid_levels table as read by execute_grid_bot_levels: id,
level_price, order_type (string as stored), is_filled flag. -/
structure TickLevel where
  id : ℕ
  levelPrice : ℚ
  orderType : String
  isFilled : Bool
  deriving DecidableEq, Repr

/-- Eligibility test of execute_grid_bot_levels:
`order_type == BUY and current_price <= level_price * 1.01`, or
`order_type == SELL and current_price >= level_price * 0.99`. -/
def shouldExecuteLevel (level : TickLevel) (currentPrice : ℚ) : Bool :=
  (level.orderType = "BUY" && currentPrice ≤ level.levelPrice * 1.01) ||
  (level.orderType = "SELL" && currentPrice ≥ level.levelPrice * 0.99)

/-- Entry appended to executed_levels by execute_grid_bot_levels on a
successful per-level execution (level_id, price, type; the nested result dict
is not carried). -/
structure ExecutedLevel where
  levelId : ℕ
  price : ℚ
  type : String
  deriving DecidableEq, Repr

/-- Per-level loop of execute_grid_bot_levels.  `execSuccess` gives, per level
id, the success flag of the execute_market_order_for_account call for that
level (that call is a separate function whose outcome depends on external
state).  Each level is skipped when already filled; an eligible level is
executed; on success it is marked filled and appended to executed_levels; on
failure it is left untouched and the loop continues with the next level.
Returns the updated level rows (in place) and the executed_levels list in
processing order. -/
def runLevels (execSuccess : ℕ → Bool) (currentPrice : ℚ) :
    List TickLevel → List TickLevel × List ExecutedLevel
  | [] => ([], [])
  | l :: ls =>
    let rest := runLevels execSuccess currentPrice ls
    if l.isFilled then
      (l :: rest.1, rest.2)
    else if shouldExecuteLevel l currentPrice then
      if execSuccess l.id then
        ({ l with isFilled := true } :: rest.1,
         ⟨l.id, l.levelPrice, l.orderType⟩ :: rest.2)
      else
        (l :: rest.1, rest.2)
    else
      (l :: rest.1, rest.2)

/-- Python runtime error raised by the embedded code. -/
inductive PyError where
  | nameError (name : String)
  deriving DecidableEq, Repr

/-- Shape of the dict built by the return statement of
execute_grid_bot_levels (success, executed_count, executed_levels, mode); the
source builds no errors list. -/
structure TickReturn where
  success : Bool
  executedCount : ℕ
  executedLevels : List ExecutedLevel
  mode : String
  deriving DecidableEq, Repr

/-- Body of execute_grid_bot_levels after the bot lookup and price fetch: run
the per-level loop, then evaluate the return expression.  That expression
reads the name is_live_mode, which is not defined anywhere in the function or
module scope, so the call raises NameError instead of returning the dict; the
database updates made by the loop persist. -/
def executeGridBotLevels (execSuccess : ℕ → Bool) (currentPrice : ℚ)
    (levels : List TickLevel) :
    (List TickLevel × List ExecutedLevel) × Except PyError TickReturn :=
  (runLevels execSuccess currentPrice levels,
   .error (.nameError "is_live_mode"))

/-! ## order_execution_service.execute_market_order_for_account, simulation -/

/-- Row written by log_trade_execution, restricted to the fields the claims
mention; total_value is `amount * price if price > 0 else 0`. -/
structure TradeLog where
  side : String
  amount : ℚ
  price : ℚ
  totalValue : ℚ
  status : String
  orderId : String
  deriving DecidableEq, Repr

/-- total_value computation of log_trade_execution. -/
def logTotalValue (amount price : ℚ) : ℚ :=
  if 0 < price then amount * price else 0

/-- Result dict of the simulation branch of execute_market_order_for_account
(success, mode, price, total, error; other fields not carried). -/
structure SimResult where
  success : Bool
  mode : Option String
  price : Option ℚ
  total : Option ℚ
  error : Option String
  deriving DecidableEq, Repr

/-- Simulation branch of execute_market_order_for_account (is_live_mode
false).  `accountExists` models the exchange-account lookup; `latestPrice`
models price_service.get_latest_price, returning the close_price of the most
recent price_history row or none.  When the lookup returns none the code
falls back to the literal default 45000.00 and proceeds: the simulated order
is logged with status SIMULATED and a synthesized SIM_ order id (timestamp
part abstracted as `ts`), and the call succeeds.  Returns the result dict and
the trade-log row written. -/
def executeMarketOrderSimulated (accountExists : Bool) (latestPrice : Option ℚ)
    (side : String) (amount : ℚ) (ts : String) : SimResult × Option TradeLog :=
  if !accountExists then
    ({ success := false, mode := none, price := none, total := none,
       error := some "Exchange account not found or access denied" }, none)
  else
    let simulatedPrice := latestPrice.getD 45000
    let totalValue := amount * simulatedPrice
    let entry : TradeLog :=
      { side := side.toUpper, amount := amount, price := simulatedPrice,
        totalValue := logTotalValue amount simulatedPrice,
        status := "SIMULATED", orderId := "SIM_" ++ ts }
    ({ success := true, mode := some "SIMULATED", price := some simulatedPrice,
       total := some totalValue, error := none }, some entry)

/-! ## ema_context_service.should_dca_bot_execute -/

/-- Trend context returned by get_latest_ema_context: success flag,
trend_label, overall_signal, confidence, golden_cross, death_cross. -/
structure EmaContext where
  success : Bool
  trendLabel : String
  overallSignal : String
  confidence : ℚ
  goldenCross : Bool
  deathCross : Bool
  deriving DecidableEq, Repr

/-- should_dca_bot_execute from ema_context_service: returns the decision and
a reason string (reason texts abridged to their fixed parts; the source
interpolates the confidence value and adds emoji). -/
def shouldDcaBotExecute (ctx : EmaContext) (botSide : String) : Bool × String :=
  if ctx.success = false then
    (true, "EMA data unavailable, executing normally")
  else if botSide = "BUY" then
    if ctx.goldenCross then
      (true, "Golden Cross - excellent timing for DCA BUY")
    else if ctx.trendLabel = "long_term_uptrend" then
      (true, "Long-term uptrend - ideal for DCA BUY")
    else if ctx.deathCross then
      (false, "Death Cross - bad timing for DCA BUY, cycle skipped")
    else if ctx.trendLabel = "long_term_downtrend" then
      (false, "Long-term downtrend - not ideal for DCA BUY, cycle skipped")
    else
      (true, "Neutral trend - DCA BUY can proceed with caution")
  else if botSide = "SELL" then
    if ctx.deathCross then
      (true, "Death Cross - excellent timing for DCA SELL")
    else if ctx.trendLabel = "long_term_downtrend" then
      (true, "Long-term downtrend - ideal for DCA SELL")
    else if ctx.goldenCross then
      (false, "Golden Cross - bad timing for DCA SELL, cycle skipped")
    else if ctx.trendLabel = "long_term_uptrend" then
      (false, "Long-term uptrend - not ideal for DCA SELL, cycle skipped")
    else
      (true, "Neutral trend - DCA SELL can proceed with caution")
  else
    (true, "Unknown bot side, executing normally")

/-! ## dca_bot_service.run_dca_cycle -/

/-- Row of the dca_bots table, restricted to the fields run_dca_cycle reads. -/
structure DcaBot where
  id : ℕ
  exchangeAccountId : ℕ
  symbol : String
  buyAmount : ℚ
  side : String
  isActive : Bool
  deriving DecidableEq, Repr

/-- Arguments of the execute_market_order_for_account call placed by
run_dca_cycle. -/
structure OrderRequest where
  exchangeAccountId : ℕ
  symbol : String
  side : String
  amount : ℚ
  deriving DecidableEq, Repr

/-- run_dca_cycle up to the order placement: lookup failure and inactive bot
return errors; otherwise the symbol is converted (BTCUSDT to BTC/USDT when it
has no slash) and a market order is executed with side hard-coded to the
string buy (source comment: DCA always buys), ignoring the side column of the
bot row. -/
def runDcaCycleOrder (bot : Option DcaBot) : Except String OrderRequest :=
  match bot with
  | none => .error "DCA bot not found or access denied"
  | some b =>
    if b.isActive = false then
      .error "DCA bot is not active"
    else
      .ok { exchangeAccountId := b.exchangeAccountId
            symbol := if b.symbol.contains '/' then b.symbol
                      else b.symbol.replace "USDT" "/USDT"
            side := "buy"
            amount := b.buyAmount }

/-! ## grid_bot_service create / stop / delete over the store -/

/-- Row of the grid_bots table, restricted to the columns the lifecycle
operations read (the advanced Binance-style columns are stored but never read
back by create, stop or delete). -/
structure GridBotRow where
  userId : ℕ
  symbol : String
  lowerPrice : ℚ
  upperPrice : ℚ
  gridCount : ℕ
  investmentAmount : ℚ
  gridType : String
  isActive : Bool

/-- Row of the grid_levels table as written by create_grid_bot. -/
structure LevelRow where
  botId : ℕ
  levelPrice : ℝ
  orderType : OrderType
  isFilled : Bool

/-- The SQLite store: users (id, balance), grid_bots keyed by id, grid_levels,
and the next autoincrement id for grid_bots. -/
structure DbState where
  users : List (ℕ × ℚ)
  bots : List (ℕ × GridBotRow)
  levels : List LevelRow
  nextId : ℕ

/-- UPDATE users SET balance = b WHERE id = uid. -/
def setUserBalance (users : List (ℕ × ℚ)) (uid : ℕ) (b : ℚ) : List (ℕ × ℚ) :=
  users.map (fun p => if p.1 = uid then (p.1, b) else p)

/-- UPDATE users SET balance = balance + amt WHERE id = uid. -/
def creditUserBalance (users : List (ℕ × ℚ)) (uid : ℕ) (amt : ℚ) :
    List (ℕ × ℚ) :=
  users.map (fun p => if p.1 = uid then (p.1, p.2 + amt) else p)

/-- Result dict of create_grid_bot, restricted to the fields the claims
mention (error messages keep their fixed parts; the source interpolates
amounts into the insufficient-balance message). -/
structure CreateResult where
  success : Bool
  error : Option String
  botId : Option ℕ
  newBalance : Option ℚ

/-- Failure result of create_grid_bot. -/
def createFail (msg : String) : CreateResult :=
  { success := false, error := some msg, botId := none, newBalance := none }

/-- create_grid_bot from grid_bot_service: the validation chain in source
order, the balance check against the users row, then — only after every check
passed — insertion of the bot row, computation and insertion of the grid
levels, and the balance update `new_balance = balance - investment_amount`.
Optional trigger/take-profit/stop-loss parameters are validated as in the
source. -/
noncomputable def create_grid_bot (st : DbState) (userId : ℕ) (symbol : String)
    (lowerPrice upperPrice : ℚ) (gridCount : ℕ) (investmentAmount : ℚ)
    (gridType : String) (gridTriggerPrice takeProfitPct stopLossPrice : Option ℚ) :
    CreateResult × DbState :=
  if gridCount < 2 then
    (createFail "Grid count must be at least 2", st)
  else if 100 < gridCount then
    (createFail "Grid count too large (max 100)", st)
  else if upperPrice ≤ lowerPrice then
    (createFail "Upper price must be greater than lower price", st)
  else if lowerPrice ≤ 0 ∨ upperPrice ≤ 0 then
    (createFail "Prices must be positive", st)
  else if investmentAmount ≤ 0 then
    (createFail "Investment amount must be positive", st)
  else if gridType ≠ "ARITHMETIC" ∧ gridType ≠ "GEOMETRIC" then
    (createFail "Grid type must be ARITHMETIC or GEOMETRIC", st)
  else if gridTriggerPrice.any (fun t => t ≤ 0) then
    (createFail "Trigger price must be positive", st)
  else if takeProfitPct.any (fun t => t ≤ 0 || 1000 < t) then
    (createFail "Take profit percent must be between 0 and 1000", st)
  else if stopLossPrice.any (fun t => t ≤ 0) then
    (createFail "Stop loss price must be positive", st)
  else
    match st.users.lookup userId with
    | none => (createFail "User not found", st)
    | some balance =>
      if balance < investmentAmount then
        (createFail "Insufficient balance", st)
      else
        let botId := st.nextId
        let bot : GridBotRow :=
          { userId := userId, symbol := symbol, lowerPrice := lowerPrice,
            upperPrice := upperPrice, gridCount := gridCount,
            investmentAmount := investmentAmount, gridType := gridType,
            isActive := true }
        let levelRows :=
          (calcGridLevels gridType lowerPrice upperPrice gridCount).map
            (fun l => LevelRow.mk botId l.levelPrice l.orderType false)
        let newBalance := balance - investmentAmount
        ({ success := true, error := none, botId := some botId,
           newBalance := some newBalance },
         { users := setUserBalance st.users userId newBalance
           bots := st.bots ++ [(botId, bot)]
           levels := st.levels ++ levelRows
           nextId := st.nextId + 1 })

/-- get_bot_details ownership lookup used by stop and delete:
`SELECT * FROM grid_bots WHERE id = ? AND user_id = ?` (the levels and stats
it also returns are not read by stop or delete). -/
def get_bot_details (st : DbState) (botId userId : ℕ) : Option GridBotRow :=
  match st.bots.lookup botId with
  | none => none
  | some b => if b.userId = userId then some b else none

/-- Result dict of stop_grid_bot. -/
structure StopResult where
  success : Bool
  error : Option String
  returnedInvestment : Option ℚ
  deriving DecidableEq, Repr

/-- stop_grid_bot from grid_bot_service: after the ownership lookup it sets
is_active = 0 and credits the investment amount back to the balance of the
user with `UPDATE users SET balance = balance + ?`.  There is no check that
the bot is still active. -/
def stop_grid_bot (st : DbState) (botId userId : ℕ) : StopResult × DbState :=
  match get_bot_details st botId userId with
  | none =>
    ({ success := false, error := some "Bot not found or access denied",
       returnedInvestment := none }, st)
  | some bot =>
    ({ success := true, error := none,
       returnedInvestment := some bot.investmentAmount },
     { st with
         bots := st.bots.map
           (fun p => if p.1 = botId then (p.1, { p.2 with isActive := false })
                     else p)
         users := creditUserBalance st.users userId bot.investmentAmount })

/-- Result dict of delete_grid_bot. -/
structure DeleteResult where
  success : Bool
  error : Option String
  deriving DecidableEq, Repr

/-- delete_grid_bot from grid_bot_service: after the ownership lookup it
credits the investment back only when the bot is still active (is_active = 1),
then removes the bot row; the level rows go with it via ON DELETE CASCADE. -/
def delete_grid_bot (st : DbState) (botId userId : ℕ) : DeleteResult × DbState :=
  match get_bot_details st botId userId with
  | none =>
    ({ success := false, error := some "Bot not found or access denied" }, st)
  | some bot =>
    let users' := if bot.isActive then
                    creditUserBalance st.users userId bot.investmentAmount
                  else st.users
    ({ success := true, error := none },
     { st with
         users := users'
         bots := st.bots.filter (fun p => p.1 ≠ botId)
         levels := st.levels.filter (fun l => l.botId ≠ botId) })

/-! ## Helper lemmas -/

theorem runLevels_executed_mem (es : ℕ → Bool) (p : ℚ) :
    ∀ lvls : List TickLevel, ∀ e ∈ (runLevels es p lvls).2,
      ∃ l ∈ lvls, l.id = e.levelId ∧ l.isFilled = false ∧
        shouldExecuteLevel l p = true := by
  intro lvls
  induction lvls with
  | nil => intro e he; simp [runLevels] at he
  | cons l ls ih =>
    intro e he
    by_cases hf : l.isFilled
    · simp only [runLevels, hf, if_true] at he
      obtain ⟨l', hl', h⟩ := ih e he
      exact ⟨l', List.mem_cons_of_mem _ hl', h⟩
    · by_cases hs : shouldExecuteLevel l p
      · by_cases hex : es l.id
        · simp only [runLevels, hf, hs, hex, if_true, if_false,
            Bool.not_eq_true] at he
          rcases List.mem_cons.mp he with h | h
          · refine ⟨l, List.mem_cons_self _ _, ?_, ?_, hs⟩
            · rw [h]
            · simpa using hf
          · obtain ⟨l', hl', hh⟩ := ih e h
            exact ⟨l', List.mem_cons_of_mem _ hl', hh⟩
        · simp only [runLevels, hf, hs, hex, if_true, if_false,
            Bool.not_eq_true] at he
          obtain ⟨l', hl', hh⟩ := ih e he
          exact ⟨l', List.mem_cons_of_mem _ hl', hh⟩
      · simp only [runLevels, hf, hs, if_false, Bool.not_eq_true] at he
        obtain ⟨l', hl', hh⟩ := ih e he
        exact ⟨l', List.mem_cons_of_mem _ hl', hh⟩

theorem lookup_setUserBalance (users : List (ℕ × ℚ)) (uid : ℕ) (b bal : ℚ)
    (h : users.lookup uid = some bal) :
    (setUserBalance users uid b).lookup uid = some b := by
  induction users with
  | nil => simp [List.lookup] at h
  | cons u us ih =>
    obtain ⟨k, v⟩ := u
    simp only [setUserBalance, List.map]
    by_cases hk : k = uid
    · subst hk
      rw [if_pos rfl]
      simp [List.lookup]
    · rw [if_neg hk]
      have hbe : (uid == k) = false := by
        simp only [beq_eq_false_iff_ne, ne_eq]
        exact fun hh => hk hh.symm
      simp only [List.lookup, hbe] at h ⊢
      exact ih h

theorem lookup_creditUserBalance (users : List (ℕ × ℚ)) (uid : ℕ) (amt bal : ℚ)
    (h : users.lookup uid = some bal) :
    (creditUserBalance users uid amt).lookup uid = some (bal + amt) := by
  induction users with
  | nil => simp [List.lookup] at h
  | cons u us ih =>
    obtain ⟨k, v⟩ := u
    simp only [creditUserBalance, List.map]
    by_cases hk : k = uid
    · subst hk
      rw [if_pos rfl]
      simp only [List.lookup, beq_self_eq_true, Option.some.injEq] at h
      simp [List.lookup, h]
    · rw [if_neg hk]
      have hbe : (uid == k) = false := by
        simp only [beq_eq_false_iff_ne, ne_eq]
        exact fun hh => hk hh.symm
      simp only [List.lookup, hbe] at h ⊢
      exact ih h

theorem lookup_append_right {α : Type} [BEq α] (l₁ l₂ : List (α × GridBotRow))
    (k : α) (h : l₁.lookup k = none) :
    (l₁ ++ l₂).lookup k = l₂.lookup k := by
  induction l₁ with
  | nil => simp
  | cons a as ih =>
    simp only [List.lookup, List.cons_append] at h ⊢
    cases hk : k == a.1 with
    | true => rw [hk] at h; simp at h
    | false => rw [hk] at h; exact ih h

/-! ## Claim theorems -/

/-- C2: the claim says a second stop of the same bot fails with AlreadyStopped
and does not credit the balance again.  The code has no already-stopped check:
starting from a user with balance 1000, creating a bot with investment 1000
(balance drops to 0) and stopping it twice, the second stop also reports
success and credits the investment a second time, leaving balance 2000 —
double-return, which the claim forbids. -/
theorem C2_double_stop_double_credit :
    ((create_grid_bot ⟨[(1, 1000)], [], [], 1⟩ 1 "BTCUSDT" 40000 50000 5 1000
        "ARITHMETIC" none none none).1.success = true) ∧
    ((create_grid_bot ⟨[(1, 1000)], [], [], 1⟩ 1 "BTCUSDT" 40000 50000 5 1000
        "ARITHMETIC" none none none).2.users.lookup 1 = some 0) ∧
    ((stop_grid_bot (create_grid_bot ⟨[(1, 1000)], [], [], 1⟩ 1 "BTCUSDT"
        40000 50000 5 1000 "ARITHMETIC" none none none).2 1 1).1.success =
      true) ∧
    ((stop_grid_bot (create_grid_bot ⟨[(1, 1000)], [], [], 1⟩ 1 "BTCUSDT"
        40000 50000 5 1000 "ARITHMETIC" none none none).2 1 1).2.users.lookup
        1 = some 1000) ∧
    ((stop_grid_bot (stop_grid_bot (create_grid_bot ⟨[(1, 1000)], [], [], 1⟩
        1 "BTCUSDT" 40000 50000 5 1000 "ARITHMETIC" none none
        none).2 1 1).2 1 1).1.success = true) ∧
    ((stop_grid_bot (stop_grid_bot (create_grid_bot ⟨[(1, 1000)], [], [], 1⟩
        1 "BTCUSDT" 40000 50000 5 1000 "ARITHMETIC" none none
        none).2 1 1).2 1 1).2.users.lookup 1 = some 2000) := by
  norm_num [create_grid_bot, stop_grid_bot, get_bot_details, createFail,
    setUserBalance, creditUserBalance, List.lookup]

/-- C3: the claim says a tick with one failing and one succeeding eligible
level leaves the failing level PENDING, marks the succeeding one FILLED, and
returns a result of shape executed_count / executed_levels / errors carrying
the per-level failures.  In the code the loop indeed continues past the
failing level and the state updates are as claimed, but no errors are
collected anywhere, and the return statement reads the undefined name
is_live_mode, so every call raises NameError instead of returning a result:
with BUY level 1 (whose execution fails) and SELL level 2 (whose execution
succeeds), both eligible at price 100, level 1 stays pending, level 2 is
filled and recorded, and the call ends in the NameError. -/
theorem C3_tick_name_error :
    ((executeGridBotLevels (fun i => decide (i = 2)) 100
        [⟨1, 100, "BUY", false⟩, ⟨2, 100, "SELL", false⟩]).1 =
      ([⟨1, 100, "BUY", false⟩, ⟨2, 100, "SELL", true⟩],
       [⟨2, 100, "SELL"⟩])) ∧
    ((executeGridBotLevels (fun i => decide (i = 2)) 100
        [⟨1, 100, "BUY", false⟩, ⟨2, 100, "SELL", false⟩]).2 =
      .error (.nameError "is_live_mode")) := by
  exact ⟨by norm_num [executeGridBotLevels, runLevels, shouldExecuteLevel], rfl⟩

/-- C5: a pending BUY level is eligible exactly when the current price is at
most level price times 1.01, a pending SELL level exactly when the current
price is at least level price times 0.99, and every level executed by the
per-level loop of a tick came from a level that was not already filled (a
FILLED level is never executed again). -/
theorem C5_eligibility (lv : TickLevel) (p : ℚ) (es : ℕ → Bool)
    (lvls : List TickLevel) :
    (lv.orderType = "BUY" →
      (shouldExecuteLevel lv p = true ↔ p ≤ lv.levelPrice * 1.01)) ∧
    (lv.orderType = "SELL" →
      (shouldExecuteLevel lv p = true ↔ lv.levelPrice * 0.99 ≤ p)) ∧
    (∀ e ∈ (runLevels es p lvls).2,
      ∃ l ∈ lvls, l.id = e.levelId ∧ l.isFilled = false ∧
        shouldExecuteLevel l p = true) := by
  refine ⟨?_, ?_, runLevels_executed_mem es p lvls⟩
  · intro h
    simp [shouldExecuteLevel, h]
  · intro h
    simp [shouldExecuteLevel, h]

/-- C5 witness: a BUY level priced 100 is eligible at current price 100, and
with one pending SELL level priced 100 whose execution succeeds, the executed
entry of the tick loop traces back to that pending level. -/
theorem C5_witness :
    ((⟨1, 100, "BUY", false⟩ : TickLevel).orderType = "BUY") ∧
    (shouldExecuteLevel ⟨1, 100, "BUY", false⟩ 100 = true ↔
      (100 : ℚ) ≤ 100 * 1.01) ∧
    ((⟨2, 100, "SELL", false⟩ : TickLevel) ∈
      [(⟨2, 100, "SELL", false⟩ : TickLevel)]) ∧
    (∃ l ∈ [(⟨2, 100, "SELL", false⟩ : TickLevel)],
      l.id = 2 ∧ l.isFilled = false ∧ shouldExecuteLevel l 100 = true) := by
  refine ⟨rfl, (C5_eligibility ⟨1, 100, "BUY", false⟩ 100 (fun _ => true)
    [⟨2, 100, "SELL", false⟩]).1 rfl, by simp, ?_⟩
  exact (C5_eligibility ⟨1, 100, "BUY", false⟩ 100 (fun _ => true)
    [⟨2, 100, "SELL", false⟩]).2.2 ⟨2, 100, "SELL"⟩
    (by norm_num [runLevels, shouldExecuteLevel])

/-- C6 counterexample: the claim says the simulated execution fails with
PriceUnavailable when the price source is unavailable.  With the price lookup
returning none, the code instead succeeds, using the hardcoded default price
45000.00. -/
theorem C6_counterexample :
    ((executeMarketOrderSimulated true none "buy" 0.01 "20250101").1.success =
      true) ∧
    ((executeMarketOrderSimulated true none "buy" 0.01 "20250101").1.error =
      none) ∧
    ((executeMarketOrderSimulated true none "buy" 0.01 "20250101").1.price =
      some 45000) := by
  decide

/-- C6 amended: for every simulated execution with the exchange account
present, the fill price is the most recent known price when available and the
hardcoded default 45000.00 otherwise, a trade-log entry with status SIMULATED
and a synthesized SIM_ order id is created with total_value equal to amount
times price, the call succeeds, and Scenario D (amount 0.01 at known price
42000) logs total_value 420. -/
theorem C6_simulated_amended (latestPrice : Option ℚ) (side : String)
    (amount : ℚ) (ts : String) :
    ((executeMarketOrderSimulated true latestPrice side amount ts).1.success =
      true) ∧
    ((executeMarketOrderSimulated true latestPrice side amount ts).1.price =
      some (latestPrice.getD 45000)) ∧
    ((executeMarketOrderSimulated true latestPrice side amount ts).2 =
      some { side := side.toUpper, amount := amount,
             price := latestPrice.getD 45000,
             totalValue := logTotalValue amount (latestPrice.getD 45000),
             status := "SIMULATED", orderId := "SIM_" ++ ts }) ∧
    ((executeMarketOrderSimulated true (some 42000) "buy" 0.01 ts).2.map
        (fun e => e.totalValue) = some 420) := by
  refine ⟨rfl, rfl, rfl, ?_⟩
  norm_num [executeMarketOrderSimulated, logTotalValue]

/-- C6 witness, Scenario D: with latest known price 42000 and amount 0.01 the
simulated execution succeeds and logs a SIMULATED entry whose total value is
the claimed amount times price. -/
theorem C6_witness :
    ((executeMarketOrderSimulated true (some 42000) "buy" 0.01 "T").1.success
      = true) ∧
    ((executeMarketOrderSimulated true (some 42000) "buy" 0.01 "T").1.price =
      some ((some (42000 : ℚ)).getD 45000)) ∧
    ((executeMarketOrderSimulated true (some 42000) "buy" 0.01 "T").2 =
      some { side := ("buy" : String).toUpper, amount := 0.01,
             price := (some (42000 : ℚ)).getD 45000,
             totalValue := logTotalValue 0.01 ((some (42000 : ℚ)).getD 45000),
             status := "SIMULATED", orderId := "SIM_" ++ "T" }) ∧
    ((executeMarketOrderSimulated true (some 42000) "buy" 0.01 "T").2.map
        (fun e => e.totalValue) = some 420) :=
  C6_simulated_amended (some 42000) "buy" 0.01 "T"

/-- C7: BUY-side DCA gating permits execution on a confirmed uptrend, on a
golden cross, on a neutral trend with no death cross, and when the trend
provider is unavailable (fail open); it suppresses execution on a death cross
(absent a golden cross or uptrend) and on a confirmed downtrend (absent a
golden cross). -/
theorem C7_dca_buy_gating (ctx : EmaContext) :
    (ctx.success = false → (shouldDcaBotExecute ctx "BUY").1 = true) ∧
    (ctx.goldenCross = true → (shouldDcaBotExecute ctx "BUY").1 = true) ∧
    (ctx.trendLabel = "long_term_uptrend" →
      (shouldDcaBotExecute ctx "BUY").1 = true) ∧
    (ctx.trendLabel ≠ "long_term_uptrend" →
      ctx.trendLabel ≠ "long_term_downtrend" → ctx.deathCross = false →
      (shouldDcaBotExecute ctx "BUY").1 = true) ∧
    (ctx.success = true → ctx.goldenCross = false →
      ctx.trendLabel ≠ "long_term_uptrend" → ctx.deathCross = true →
      (shouldDcaBotExecute ctx "BUY").1 = false) ∧
    (ctx.success = true → ctx.goldenCross = false →
      ctx.trendLabel = "long_term_downtrend" →
      (shouldDcaBotExecute ctx "BUY").1 = false) := by
  obtain ⟨s, t, o, c, g, d⟩ := ctx
  refine ⟨?_, ?_, ?_, ?_, ?_, ?_⟩ <;> simp only
  · intro h
    simp [shouldDcaBotExecute, h]
  · intro h
    cases s <;> simp [shouldDcaBotExecute, h]
  · intro h
    cases s <;> cases g <;> simp [shouldDcaBotExecute, h]
  · intro h1 h2 h3
    cases s <;> cases g <;> simp [shouldDcaBotExecute, h1, h2, h3]
  · intro h1 h2 h3 h4
    simp [shouldDcaBotExecute, h1, h2, h3, h4]
  · intro h1 h2 h3
    subst h3
    cases d <;> simp [shouldDcaBotExecute, h1, h2]

/-- C7 witness, Scenario C: side BUY, trend_label long_term_downtrend, no
golden cross, provider available — the bot is suppressed. -/
theorem C7_witness :
    (({ success := true, trendLabel := "long_term_downtrend",
        overallSignal := "HOLD", confidence := 0, goldenCross := false,
        deathCross := false } : EmaContext).success = true) ∧
    (shouldDcaBotExecute
      { success := true, trendLabel := "long_term_downtrend",
        overallSignal := "HOLD", confidence := 0, goldenCross := false,
        deathCross := false } "BUY").1 = false :=
  ⟨rfl, (C7_dca_buy_gating
    { success := true, trendLabel := "long_term_downtrend",
      overallSignal := "HOLD", confidence := 0, goldenCross := false,
      deathCross := false }).2.2.2.2.2 rfl rfl rfl⟩

/-- C10: run_dca_cycle places a market order with side buy for every active
DCA bot, whatever the side column of the bot row holds. -/
theorem C10_dca_always_buys (bot : DcaBot) (h : bot.isActive = true) :
    ∃ req, runDcaCycleOrder (some bot) = Except.ok req ∧
      req.side = "buy" ∧ req.amount = bot.buyAmount := by
  refine ⟨{ exchangeAccountId := bot.exchangeAccountId,
            symbol := if bot.symbol.contains '/' then bot.symbol
                      else bot.symbol.replace "USDT" "/USDT",
            side := "buy", amount := bot.buyAmount }, ?_, rfl, rfl⟩
  simp [runDcaCycleOrder, h]

/-- C10 witness: a DCA bot whose stored side is SELL still places a buy
order. -/
theorem C10_witness :
    (({ id := 1, exchangeAccountId := 1, symbol := "BTCUSDT", buyAmount := 5,
        side := "SELL", isActive := true } : DcaBot).side = "SELL") ∧
    ∃ req, runDcaCycleOrder (some
        { id := 1, exchangeAccountId := 1, symbol := "BTCUSDT",
          buyAmount := 5, side := "SELL", isActive := true }) =
        Except.ok req ∧ req.side = "buy" ∧ req.amount = 5 :=
  ⟨rfl, C10_dca_always_buys
    { id := 1, exchangeAccountId := 1, symbol := "BTCUSDT", buyAmount := 5,
      side := "SELL", isActive := true } rfl⟩

/-- C9: every create with an invalid configuration (grid_count below 2 or
above 100, lower price not below upper, non-positive bounds, non-positive
investment, unsupported spacing mode) or with the user balance below the
investment returns a failure result carrying an error message and leaves the
store untouched: no bot row, no level rows, no balance change. -/
theorem C9_rejected_create_no_trace (st : DbState) (userId : ℕ)
    (symbol : String) (lowerPrice upperPrice : ℚ) (gridCount : ℕ)
    (investmentAmount : ℚ) (gridType : String) (trig tp sl : Option ℚ)
    (h : gridCount < 2 ∨ 100 < gridCount ∨ upperPrice ≤ lowerPrice ∨
         lowerPrice ≤ 0 ∨ upperPrice ≤ 0 ∨ investmentAmount ≤ 0 ∨
         (gridType ≠ "ARITHMETIC" ∧ gridType ≠ "GEOMETRIC") ∨
         (∃ bal, st.users.lookup userId = some bal ∧
           bal < investmentAmount)) :
    (create_grid_bot st userId symbol lowerPrice upperPrice gridCount
        investmentAmount gridType trig tp sl).1.success = false ∧
    ((create_grid_bot st userId symbol lowerPrice upperPrice gridCount
        investmentAmount gridType trig tp sl).1.error).isSome = true ∧
    (create_grid_bot st userId symbol lowerPrice upperPrice gridCount
        investmentAmount gridType trig tp sl).2 = st := by
  unfold create_grid_bot
  by_cases h1 : gridCount < 2
  · rw [if_pos h1]
    exact ⟨rfl, rfl, rfl⟩
  rw [if_neg h1]
  by_cases h2 : 100 < gridCount
  · rw [if_pos h2]
    exact ⟨rfl, rfl, rfl⟩
  rw [if_neg h2]
  by_cases h3 : upperPrice ≤ lowerPrice
  · rw [if_pos h3]
    exact ⟨rfl, rfl, rfl⟩
  rw [if_neg h3]
  by_cases h4 : lowerPrice ≤ 0 ∨ upperPrice ≤ 0
  · rw [if_pos h4]
    exact ⟨rfl, rfl, rfl⟩
  rw [if_neg h4]
  by_cases h5 : investmentAmount ≤ 0
  · rw [if_pos h5]
    exact ⟨rfl, rfl, rfl⟩
  rw [if_neg h5]
  by_cases h6 : gridType ≠ "ARITHMETIC" ∧ gridType ≠ "GEOMETRIC"
  · rw [if_pos h6]
    exact ⟨rfl, rfl, rfl⟩
  rw [if_neg h6]
  by_cases h7 : Option.any (fun t => decide (t ≤ 0)) trig = true
  · rw [if_pos h7]
    exact ⟨rfl, rfl, rfl⟩
  rw [if_neg h7]
  by_cases h8 : Option.any (fun t => decide (t ≤ 0) || decide (1000 < t)) tp
      = true
  · rw [if_pos h8]
    exact ⟨rfl, rfl, rfl⟩
  rw [if_neg h8]
  by_cases h9 : Option.any (fun t => decide (t ≤ 0)) sl = true
  · rw [if_pos h9]
    exact ⟨rfl, rfl, rfl⟩
  rw [if_neg h9]
  cases hu : st.users.lookup userId with
  | none =>
    simp only [hu]
    exact ⟨rfl, rfl, trivial⟩
  | some bal =>
    simp only [hu]
    by_cases hb : bal < investmentAmount
    · rw [if_pos hb]
      exact ⟨rfl, rfl, rfl⟩
    · exfalso
      rcases h with hc | hc | hc | hc | hc | hc | hc | ⟨bal', hb', hlt⟩
      · exact h1 hc
      · exact h2 hc
      · exact h3 hc
      · exact h4 (Or.inl hc)
      · exact h4 (Or.inr hc)
      · exact h5 hc
      · exact h6 hc
      · rw [hu] at hb'
        injection hb' with hbb
        exact hb (hbb ▸ hlt)

/-- C9 witness: a create with grid_count 1 against a store holding one user
with balance 100 is rejected and the store is returned unchanged. -/
theorem C9_witness :
    ((1 : ℕ) < 2 ∨ 100 < (1 : ℕ) ∨ (50000 : ℚ) ≤ 40000 ∨ (40000 : ℚ) ≤ 0 ∨
      (50000 : ℚ) ≤ 0 ∨ (1000 : ℚ) ≤ 0 ∨
      (("ARITHMETIC" : String) ≠ "ARITHMETIC" ∧
        ("ARITHMETIC" : String) ≠ "GEOMETRIC") ∨
      (∃ bal, (DbState.mk [(1, 100)] [] [] 1).users.lookup 1 = some bal ∧
        bal < 1000)) ∧
    ((create_grid_bot ⟨[(1, 100)], [], [], 1⟩ 1 "BTCUSDT" 40000 50000 1 1000
        "ARITHMETIC" none none none).1.success = false ∧
     ((create_grid_bot ⟨[(1, 100)], [], [], 1⟩ 1 "BTCUSDT" 40000 50000 1 1000
        "ARITHMETIC" none none none).1.error).isSome = true ∧
     (create_grid_bot ⟨[(1, 100)], [], [], 1⟩ 1 "BTCUSDT" 40000 50000 1 1000
        "ARITHMETIC" none none none).2 = ⟨[(1, 100)], [], [], 1⟩) :=
  ⟨Or.inl (by decide),
   C9_rejected_create_no_trace ⟨[(1, 100)], [], [], 1⟩ 1 "BTCUSDT" 40000
     50000 1 1000 "ARITHMETIC" none none none (Or.inl (by decide))⟩

/-- C8: creating a grid bot with a valid configuration and sufficient balance
deducts exactly the investment from the user balance, and stopping the bot
immediately afterwards (no fills) restores the balance to its value before
the create. -/
theorem C8_capital_round_trip (st : DbState) (userId : ℕ) (symbol : String)
    (lowerPrice upperPrice : ℚ) (gridCount : ℕ) (investmentAmount : ℚ)
    (gridType : String) (bal : ℚ)
    (hc2 : 2 ≤ gridCount) (hc100 : gridCount ≤ 100) (hl : 0 < lowerPrice)
    (hlu : lowerPrice < upperPrice) (hinv : 0 < investmentAmount)
    (hgt : gridType = "ARITHMETIC" ∨ gridType = "GEOMETRIC")
    (hu : st.users.lookup userId = some bal) (hbal : investmentAmount ≤ bal)
    (hfresh : st.bots.lookup st.nextId = none) :
    ((create_grid_bot st userId symbol lowerPrice upperPrice gridCount
        investmentAmount gridType none none none).1.success = true) ∧
    ((create_grid_bot st userId symbol lowerPrice upperPrice gridCount
        investmentAmount gridType none none none).1.newBalance =
      some (bal - investmentAmount)) ∧
    ((create_grid_bot st userId symbol lowerPrice upperPrice gridCount
        investmentAmount gridType none none none).2.users.lookup userId =
      some (bal - investmentAmount)) ∧
    ((stop_grid_bot (create_grid_bot st userId symbol lowerPrice upperPrice
        gridCount investmentAmount gridType none none none).2 st.nextId
        userId).1.success = true) ∧
    ((stop_grid_bot (create_grid_bot st userId symbol lowerPrice upperPrice
        gridCount investmentAmount gridType none none none).2 st.nextId
        userId).1.returnedInvestment = some investmentAmount) ∧
    ((stop_grid_bot (create_grid_bot st userId symbol lowerPrice upperPrice
        gridCount investmentAmount gridType none none none).2 st.nextId
        userId).2.users.lookup userId = some bal) := by
  have hne1 : ¬ gridCount < 2 := by omega
  have hne2 : ¬ 100 < gridCount := by omega
  have hne3 : ¬ upperPrice ≤ lowerPrice := not_le.mpr hlu
  have hne4 : ¬ (lowerPrice ≤ 0 ∨ upperPrice ≤ 0) := by
    push_neg
    exact ⟨hl, lt_trans hl hlu⟩
  have hne5 : ¬ investmentAmount ≤ 0 := not_le.mpr hinv
  have hne6 : ¬ (gridType ≠ "ARITHMETIC" ∧ gridType ≠ "GEOMETRIC") := by
    rcases hgt with hg | hg <;> simp [hg]
  have hcreate : create_grid_bot st userId symbol lowerPrice upperPrice
      gridCount investmentAmount gridType none none none =
      ({ success := true, error := none, botId := some st.nextId,
         newBalance := some (bal - investmentAmount) },
       { users := setUserBalance st.users userId (bal - investmentAmount)
         bots := st.bots ++ [(st.nextId,
           { userId := userId, symbol := symbol, lowerPrice := lowerPrice,
             upperPrice := upperPrice, gridCount := gridCount,
             investmentAmount := investmentAmount, gridType := gridType,
             isActive := true })]
         levels := st.levels ++
           (calcGridLevels gridType lowerPrice upperPrice gridCount).map
             (fun l => LevelRow.mk st.nextId l.levelPrice l.orderType false)
         nextId := st.nextId + 1 }) := by
    unfold create_grid_bot
    rw [if_neg hne1, if_neg hne2, if_neg hne3, if_neg hne4, if_neg hne5,
        if_neg hne6]
    simp only [Option.any_none, Bool.false_eq_true, if_false, hu]
    rw [if_neg (not_lt.mpr hbal)]
  have husers1 : (setUserBalance st.users userId
      (bal - investmentAmount)).lookup userId =
      some (bal - investmentAmount) :=
    lookup_setUserBalance st.users userId _ bal hu
  have hstop : stop_grid_bot (create_grid_bot st userId symbol lowerPrice
      upperPrice gridCount investmentAmount gridType none none none).2
      st.nextId userId =
      ({ success := true, error := none,
         returnedInvestment := some investmentAmount },
       { users := creditUserBalance (setUserBalance st.users userId
           (bal - investmentAmount)) userId investmentAmount
         bots := ((create_grid_bot st userId symbol lowerPrice upperPrice
           gridCount investmentAmount gridType none none
           none).2.bots).map (fun p => if p.1 = st.nextId then
             (p.1, { p.2 with isActive := false }) else p)
         levels := st.levels ++
           (calcGridLevels gridType lowerPrice upperPrice gridCount).map
             (fun l => LevelRow.mk st.nextId l.levelPrice l.orderType false)
         nextId := st.nextId + 1 }) := by
    rw [hcreate]
    unfold stop_grid_bot get_bot_details
    rw [lookup_append_right st.bots _ st.nextId hfresh]
    simp [List.lookup, hcreate]
  refine ⟨?_, ?_, ?_, ?_, ?_, ?_⟩
  · rw [hcreate]
  · rw [hcreate]
  · rw [hcreate]
    exact husers1
  · rw [hstop]
  · rw [hstop]
  · rw [hstop]
    show (creditUserBalance (setUserBalance st.users userId
        (bal - investmentAmount)) userId investmentAmount).lookup userId =
      some bal
    rw [lookup_creditUserBalance _ _ _ _ husers1, sub_add_cancel]

/-- C8 witness: a user with balance 1000 creates a bot with investment 1000
(balance drops by 1000) and stops it at once; the balance returns to 1000. -/
theorem C8_witness :
    ((create_grid_bot ⟨[(1, 1000)], [], [], 1⟩ 1 "BTCUSDT" 40000 50000 5 1000
        "ARITHMETIC" none none none).1.success = true) ∧
    ((create_grid_bot ⟨[(1, 1000)], [], [], 1⟩ 1 "BTCUSDT" 40000 50000 5 1000
        "ARITHMETIC" none none none).1.newBalance = some (1000 - 1000)) ∧
    ((create_grid_bot ⟨[(1, 1000)], [], [], 1⟩ 1 "BTCUSDT" 40000 50000 5 1000
        "ARITHMETIC" none none none).2.users.lookup 1 =
      some (1000 - 1000)) ∧
    ((stop_grid_bot (create_grid_bot ⟨[(1, 1000)], [], [], 1⟩ 1 "BTCUSDT"
        40000 50000 5 1000 "ARITHMETIC" none none none).2 1 1).1.success =
      true) ∧
    ((stop_grid_bot (create_grid_bot ⟨[(1, 1000)], [], [], 1⟩ 1 "BTCUSDT"
        40000 50000 5 1000 "ARITHMETIC" none none none).2 1
        1).1.returnedInvestment = some 1000) ∧
    ((stop_grid_bot (create_grid_bot ⟨[(1, 1000)], [], [], 1⟩ 1 "BTCUSDT"
        40000 50000 5 1000 "ARITHMETIC" none none none).2 1
        1).2.users.lookup 1 = some 1000) :=
  C8_capital_round_trip ⟨[(1, 1000)], [], [], 1⟩ 1 "BTCUSDT" 40000 50000 5
    1000 "ARITHMETIC" 1000 (by decide) (by decide) (by norm_num)
    (by norm_num) (by norm_num) (Or.inl rfl) (by simp [List.lookup])
    (by norm_num) rfl

/-- C4 counterexample: the claim says the first floor((count + 1) / 2) levels
are tagged BUY, which for Scenario A (count 5) would make the first 3 levels
BUY.  The code tags index i BUY only when i is below count integer-divided by
2, so in Scenario A the level at index 2 — which the claim counts among the
first 3 — is tagged SELL. -/
theorem C4_counterexample :
    ((calcGridLevels "ARITHMETIC" 40000 50000 5).map
        (fun l => l.orderType))[2]? = some OrderType.SELL ∧
    (2 : ℕ) < (5 + 1) / 2 ∧ OrderType.SELL ≠ OrderType.BUY := by
  refine ⟨?_, by decide, by decide⟩
  simp [calcGridLevels, levelOrderType, List.getElem?_map]

/-- C4 amended: for every grid configuration, the first floor(count / 2)
computed levels in ascending order are tagged BUY and the remaining levels
SELL; for Scenario A (count 5) the BUY-tagged levels are the first 2. -/
theorem C4_tagging_amended (gridType : String) (lower upper : ℚ)
    (count i : ℕ) (hi : i < count) :
    (i < count / 2 →
      ((calcGridLevels gridType lower upper count).map
        (fun l => l.orderType))[i]? = some OrderType.BUY) ∧
    (count / 2 ≤ i →
      ((calcGridLevels gridType lower upper count).map
        (fun l => l.orderType))[i]? = some OrderType.SELL) := by
  have hmap : ((calcGridLevels gridType lower upper count).map
      (fun l => l.orderType))[i]? = some (levelOrderType count i) := by
    by_cases hA : gridType = "ARITHMETIC" <;>
      simp [calcGridLevels, hA, List.getElem?_map, List.getElem?_range, hi]
  constructor
  · intro hh
    rw [hmap]
    simp only [levelOrderType]
    rw [if_pos hh]
  · intro hh
    rw [hmap]
    simp only [levelOrderType]
    rw [if_neg (Nat.not_lt.mpr hh)]

/-- C4 witness: in Scenario A the level at index 1 is tagged BUY and the
level at index 4 is tagged SELL. -/
theorem C4_witness :
    (1 : ℕ) < 5 ∧ (1 : ℕ) < 5 / 2 ∧ (4 : ℕ) < 5 ∧ (5 : ℕ) / 2 ≤ 4 ∧
    ((calcGridLevels "ARITHMETIC" 40000 50000 5).map
        (fun l => l.orderType))[1]? = some OrderType.BUY ∧
    ((calcGridLevels "ARITHMETIC" 40000 50000 5).map
        (fun l => l.orderType))[4]? = some OrderType.SELL :=
  ⟨by decide, by decide, by decide, by decide,
   (C4_tagging_amended "ARITHMETIC" 40000 50000 5 1 (by decide)).1
     (by decide),
   (C4_tagging_amended "ARITHMETIC" 40000 50000 5 4 (by decide)).2
     (by decide)⟩

theorem arithLevelPrice_strictMono (lower upper : ℚ) (count : ℕ)
    (hlu : lower < upper) (hc : 2 ≤ count) :
    ∀ i j : ℕ, i < j →
      arithLevelPrice lower upper count i <
        arithLevelPrice lower upper count j := by
  intro i j hij
  unfold arithLevelPrice
  have hcq : (2 : ℚ) ≤ (count : ℚ) := by exact_mod_cast hc
  have hstep : 0 < (upper - lower) / ((count : ℚ) - 1) :=
    div_pos (by linarith) (by linarith)
  have hij' : (i : ℚ) < (j : ℚ) := by exact_mod_cast hij
  have := mul_lt_mul_of_pos_right hij' hstep
  linarith

theorem arithLevelPrice_bounds (lower upper : ℚ) (count : ℕ)
    (hlu : lower < upper) (hc : 2 ≤ count) (i : ℕ) (hi : i < count) :
    lower ≤ arithLevelPrice lower upper count i ∧
      arithLevelPrice lower upper count i ≤ upper := by
  unfold arithLevelPrice
  have hcq : (2 : ℚ) ≤ (count : ℚ) := by exact_mod_cast hc
  have hne : ((count : ℚ) - 1) ≠ 0 := by linarith
  have hstep : 0 ≤ (upper - lower) / ((count : ℚ) - 1) :=
    le_of_lt (div_pos (by linarith) (by linarith))
  constructor
  · have := mul_nonneg (Nat.cast_nonneg i : (0 : ℚ) ≤ (i : ℚ)) hstep
    linarith
  · have hi' : (i : ℚ) + 1 ≤ (count : ℚ) := by exact_mod_cast hi
    have hkey : ((count : ℚ) - 1) * ((upper - lower) / ((count : ℚ) - 1)) =
        upper - lower := by
      field_simp
    have hmul : (i : ℚ) * ((upper - lower) / ((count : ℚ) - 1)) ≤
        ((count : ℚ) - 1) * ((upper - lower) / ((count : ℚ) - 1)) :=
      mul_le_mul_of_nonneg_right (by linarith) hstep
    linarith

theorem geomFactor_one_lt (lower upper : ℚ) (count : ℕ)
    (hl : 0 < lower) (hlu : lower < upper) (hc : 2 ≤ count) :
    1 < geomFactor lower upper count := by
  unfold geomFactor
  have hl0 : (0 : ℝ) < (lower : ℝ) := by exact_mod_cast hl
  have hlu0 : (lower : ℝ) < (upper : ℝ) := by exact_mod_cast hlu
  have hcr : (2 : ℝ) ≤ (count : ℝ) := by exact_mod_cast hc
  have hx : (1 : ℝ) < (upper : ℝ) / (lower : ℝ) :=
    (one_lt_div hl0).mpr hlu0
  have he : 0 < 1 / ((count : ℝ) - 1) := by
    apply div_pos one_pos
    linarith
  exact (Real.one_lt_rpow_iff_of_pos (by linarith)).mpr (Or.inl ⟨hx, he⟩)

theorem geomFactor_pow_top (lower upper : ℚ) (count : ℕ)
    (hl : 0 < lower) (hlu : lower < upper) (hc : 2 ≤ count) :
    geomFactor lower upper count ^ (count - 1) =
      (upper : ℝ) / (lower : ℝ) := by
  unfold geomFactor
  have hl0 : (0 : ℝ) < (lower : ℝ) := by exact_mod_cast hl
  have hlu0 : (lower : ℝ) < (upper : ℝ) := by exact_mod_cast hlu
  have hcr : (2 : ℝ) ≤ (count : ℝ) := by exact_mod_cast hc
  have hx0 : (0 : ℝ) ≤ (upper : ℝ) / (lower : ℝ) :=
    le_of_lt (div_pos (lt_trans hl0 hlu0) hl0)
  rw [← Real.rpow_natCast
      (((upper : ℝ) / (lower : ℝ)) ^ ((1 : ℝ) / ((count : ℝ) - 1)))
      (count - 1),
    ← Real.rpow_mul hx0]
  have hone : (1 : ℕ) ≤ count := by omega
  have hcast : (((count - 1 : ℕ)) : ℝ) = (count : ℝ) - 1 := by
    push_cast [Nat.cast_sub hone]
    ring
  rw [hcast]
  have hne : ((count : ℝ) - 1) ≠ 0 := by linarith
  rw [one_div, inv_mul_cancel₀ hne, Real.rpow_one]

theorem geomLevelPrice_strictMono (lower upper : ℚ) (count : ℕ)
    (hl : 0 < lower) (hlu : lower < upper) (hc : 2 ≤ count) :
    ∀ i j : ℕ, i < j →
      geomLevelPrice lower upper count i <
        geomLevelPrice lower upper count j := by
  intro i j hij
  unfold geomLevelPrice
  have hr := geomFactor_one_lt lower upper count hl hlu hc
  have hl0 : (0 : ℝ) < (lower : ℝ) := by exact_mod_cast hl
  exact mul_lt_mul_of_pos_left (pow_lt_pow_right₀ hr hij) hl0

theorem geomLevelPrice_bounds (lower upper : ℚ) (count : ℕ)
    (hl : 0 < lower) (hlu : lower < upper) (hc : 2 ≤ count) (i : ℕ)
    (hi : i < count) :
    (lower : ℝ) ≤ geomLevelPrice lower upper count i ∧
      geomLevelPrice lower upper count i ≤ (upper : ℝ) := by
  have hr := geomFactor_one_lt lower upper count hl hlu hc
  have hl0 : (0 : ℝ) < (lower : ℝ) := by exact_mod_cast hl
  have hlne : (lower : ℝ) ≠ 0 := ne_of_gt hl0
  unfold geomLevelPrice
  constructor
  · have h1 : (1 : ℝ) ≤ geomFactor lower upper count ^ i :=
      one_le_pow₀ (le_of_lt hr)
    nlinarith
  · have hpow : geomFactor lower upper count ^ i ≤
        geomFactor lower upper count ^ (count - 1) :=
      pow_le_pow_right₀ (le_of_lt hr) (by omega)
    have htop := geomFactor_pow_top lower upper count hl hlu hc
    calc (lower : ℝ) * geomFactor lower upper count ^ i ≤
        (lower : ℝ) * geomFactor lower upper count ^ (count - 1) :=
          mul_le_mul_of_nonneg_left hpow (le_of_lt hl0)
      _ = (lower : ℝ) * ((upper : ℝ) / (lower : ℝ)) := by rw [htop]
      _ = (upper : ℝ) := by field_simp

/-- C1 counterexample: the claim says a valid input yields count + 1 levels
with step (upper - lower) / count.  For Scenario A (lower 40000, upper 50000,
count 5) the code produces 5 levels, not 6, and the level at index 1 is
42500, not the 42000 the claimed step formula gives. -/
theorem C1_counterexample :
    ((calcGridLevels "ARITHMETIC" 40000 50000 5).length = 5) ∧
    ((5 : ℕ) ≠ 5 + 1) ∧
    (((calcGridLevels "ARITHMETIC" 40000 50000 5).map
        (fun l => l.levelPrice))[1]? = some 42500) ∧
    ((42500 : ℝ) ≠ 40000 + 1 * ((50000 - 40000) / 5)) := by
  refine ⟨by simp [calcGridLevels], by decide, ?_, by norm_num⟩
  norm_num [calcGridLevels, arithLevelPrice, List.getElem?_map]

/-- C1 amended: for every valid input (positive lower, upper above lower,
count in [2, 100] with either spacing mode), the computation returns exactly
count strictly increasing prices bounded by [lower, upper]; in ARITHMETIC
mode level_i = lower + i * step with step = (upper - lower) / (count - 1)
for i in [0, count - 1], and in GEOMETRIC mode level_i =
lower * r ^ i with r = (upper / lower) ^ (1 / (count - 1)). -/
theorem C1_grid_levels_amended (gridType : String) (lower upper : ℚ)
    (count : ℕ) (hgt : gridType = "ARITHMETIC" ∨ gridType = "GEOMETRIC")
    (hl : 0 < lower) (hlu : lower < upper) (hc2 : 2 ≤ count)
    (hc100 : count ≤ 100) :
    ((calcGridLevels gridType lower upper count).length = count) ∧
    (((calcGridLevels gridType lower upper count).map
        (fun l => l.levelPrice)).Pairwise (· < ·)) ∧
    (∀ lv ∈ calcGridLevels gridType lower upper count,
      (lower : ℝ) ≤ lv.levelPrice ∧ lv.levelPrice ≤ (upper : ℝ)) ∧
    (gridType = "ARITHMETIC" → ∀ i, i < count →
      ((calcGridLevels gridType lower upper count).map
        (fun l => l.levelPrice))[i]? =
        some ((lower : ℝ) + (i : ℝ) *
          (((upper : ℝ) - (lower : ℝ)) / ((count : ℝ) - 1)))) ∧
    (gridType = "GEOMETRIC" → ∀ i, i < count →
      ((calcGridLevels gridType lower upper count).map
        (fun l => l.levelPrice))[i]? =
        some ((lower : ℝ) *
          (((upper : ℝ) / (lower : ℝ)) ^ ((1 : ℝ) / ((count : ℝ) - 1)))
            ^ i)) := by
  rcases hgt with hA | hG
  · subst hA
    have hform : (calcGridLevels "ARITHMETIC" lower upper count).map
        (fun l => l.levelPrice) =
        (List.range count).map
          (fun i => ((arithLevelPrice lower upper count i : ℚ) : ℝ)) := by
      simp [calcGridLevels]
    refine ⟨by simp [calcGridLevels], ?_, ?_, ?_, ?_⟩
    · rw [hform]
      refine List.Pairwise.map _ ?_ (List.pairwise_lt_range count)
      intro a b hab
      exact_mod_cast arithLevelPrice_strictMono lower upper count hlu hc2
        a b hab
    · intro lv hlv
      simp [calcGridLevels, List.mem_map, List.mem_range] at hlv
      obtain ⟨i, hi, rfl⟩ := hlv
      dsimp only
      constructor
      · exact_mod_cast
          (arithLevelPrice_bounds lower upper count hlu hc2 i hi).1
      · exact_mod_cast
          (arithLevelPrice_bounds lower upper count hlu hc2 i hi).2
    · intro _ i hi
      rw [hform]
      simp only [List.getElem?_map, List.getElem?_range, hi, if_pos hi,
        Option.map_some']
      congr 1
      push_cast [arithLevelPrice]
      ring
    · intro hcontra
      simp at hcontra
  · subst hG
    have hform : (calcGridLevels "GEOMETRIC" lower upper count).map
        (fun l => l.levelPrice) =
        (List.range count).map
          (fun i => geomLevelPrice lower upper count i) := by
      simp [calcGridLevels]
    refine ⟨by simp [calcGridLevels], ?_, ?_, ?_, ?_⟩
    · rw [hform]
      refine List.Pairwise.map _ ?_ (List.pairwise_lt_range count)
      intro a b hab
      exact geomLevelPrice_strictMono lower upper count hl hlu hc2 a b hab
    · intro lv hlv
      simp [calcGridLevels, List.mem_map, List.mem_range] at hlv
      obtain ⟨i, hi, rfl⟩ := hlv
      exact geomLevelPrice_bounds lower upper count hl hlu hc2 i hi
    · intro hcontra
      simp at hcontra
    · intro _ i hi
      rw [hform]
      simp only [List.getElem?_map, List.getElem?_range, hi, if_pos hi,
        Option.map_some']
      simp [geomLevelPrice, geomFactor]

/-- C1 witness: Scenario A instantiation — the ARITHMETIC grid over
[40000, 50000] with count 5 has exactly 5 strictly increasing prices inside
the range following the step formula with divisor count - 1. -/
theorem C1_witness :
    (("ARITHMETIC" : String) = "ARITHMETIC" ∨
      ("ARITHMETIC" : String) = "GEOMETRIC") ∧
    ((0 : ℚ) < 40000) ∧ ((40000 : ℚ) < 50000) ∧ ((2 : ℕ) ≤ 5) ∧
    ((5 : ℕ) ≤ 100) ∧
    (((calcGridLevels "ARITHMETIC" 40000 50000 5).length = 5) ∧
     (((calcGridLevels "ARITHMETIC" 40000 50000 5).map
        (fun l => l.levelPrice)).Pairwise (· < ·)) ∧
     (∀ lv ∈ calcGridLevels "ARITHMETIC" 40000 50000 5,
       ((40000 : ℚ) : ℝ) ≤ lv.levelPrice ∧
         lv.levelPrice ≤ ((50000 : ℚ) : ℝ)) ∧
     (("ARITHMETIC" : String) = "ARITHMETIC" → ∀ i : ℕ, i < 5 →
       ((calcGridLevels "ARITHMETIC" 40000 50000 5).map
         (fun l => l.levelPrice))[i]? =
         some (((40000 : ℚ) : ℝ) + (i : ℝ) *
           ((((50000 : ℚ) : ℝ) - ((40000 : ℚ) : ℝ)) / (((5 : ℕ) : ℝ) - 1)))) ∧
     (("ARITHMETIC" : String) = "GEOMETRIC" → ∀ i : ℕ, i < 5 →
       ((calcGridLevels "ARITHMETIC" 40000 50000 5).map
         (fun l => l.levelPrice))[i]? =
         some (((40000 : ℚ) : ℝ) *
           ((((50000 : ℚ) : ℝ) / ((40000 : ℚ) : ℝ)) ^
             ((1 : ℝ) / (((5 : ℕ) : ℝ) - 1))) ^ i))) :=
  ⟨Or.inl rfl, by norm_num, by norm_num, by decide, by decide,
   C1_grid_levels_amended "ARITHMETIC" 40000 50000 5 (Or.inl rfl)
     (by norm_num) (by norm_num) (by decide) (by decide)⟩

end ATA
